import Mathlib

/-!
Shallow embedding of the Availability & Booking Settlement subsystem of the
Bait-Al-Hikma tutoring-marketplace backend
(`backend/api/models.py`, `backend/payments/models.py`,
`backend/payments/serializers.py`, `backend/payments/views.py`).

Modelling conventions:
* Django `DecimalField(..., decimal_places=2)` money values are represented
  exactly as integer cents (`ℤ`); a commission percentage with two decimal
  places is represented in hundredths of a percent (so `20.00`% is `2000`).
  This is an exact isomorphism for two-decimal decimals.
* `Decimal.quantize(Decimal('0.01'))` — Python's round-half-even to two
  decimal places — becomes `roundHalfEven` below applied to suitably scaled
  integers.
* Timestamps (`timezone.now()`, `booked_at`, ...) are integer seconds;
  calendar dates are integer day numbers, so the instant
  `datetime.combine(date, time(start_hour, 0))` is
  `date * 86400 + start_hour * 3600` seconds.
* Python `%` and `//` on integers with a positive modulus agree with Lean's
  `Int.emod` / `Int.ediv`, which are the `%` / `/` notations used here.
* Database rows are lists of records; `QuerySet.get` / `.first()` become
  `List.find?` / `List.head?` on the filtered list.
* The nondeterministic `uuid.uuid4()` values and the current time are passed
  in as explicit parameters.
* Presentation-only columns (titles, colors, timestamps of row creation,
  gateway_response, ...) that no verified property mentions are omitted from
  the records.
-/

/-- Round-half-even (banker's) rounding of the exact quotient `n / d` for a
positive divisor `d` — the rounding used by Python `Decimal.quantize` in its
default context.  Written with Euclidean `/` and `%` so that
`n = d * (n / d) + n % d` and `0 ≤ n % d < d`. -/
def roundHalfEven (n d : ℤ) : ℤ :=
  let q := n / d
  let r := n % d
  if 2 * r < d then q
  else if d < 2 * r then q + 1
  else if q % 2 = 0 then q else q + 1

/-- User record (`api.models.User`): only the columns the booking and payout
flows read.  `user_type` is the literal Django string
(school_student / university_student / teacher); `grade` is the id of the
student's grade row, if set. -/
structure User where
  id : ℕ
  user_type : String
  grade : Option ℕ
  is_staff : Bool
  is_superuser : Bool
deriving DecidableEq, Repr

/-- Availability record (`api.models.Availability`), the TimeBlock of the
spec: one teacher's contiguous hour range on one day, plus audience flags,
subject tags and booking state.  `start_hour` / `end_hour` are stored
`IntegerField`s in 24-hour format, `end_hour` exclusive. -/
structure Availability where
  id : ℕ
  teacher : ℕ
  date : ℤ
  start_hour : ℤ
  end_hour : ℤ
  for_school_students : Bool
  for_university_students : Bool
  subjects : List ℕ
  is_booked : Bool
  booked_by : Option ℕ
  booked_at : Option ℤ
deriving DecidableEq, Repr

/-- Hour normalization used by `Availability.overlaps_with`
(`api/models.py`, local function `normalize_hour`): an hour equal to `0` is
treated as `24`. -/
def normalize_hour (hour : ℤ) : ℤ :=
  if hour ≠ 0 then hour else 24

/-- `Availability.overlaps_with` (`api/models.py` lines 410–426): different
date or teacher never overlap; otherwise both boundaries of both blocks are
normalized (`0 ↦ 24`) and the half-open ranges are tested with
`not (self_end <= other_start or other_end <= self_start)`. -/
def Availability.overlaps_with (self other : Availability) : Bool :=
  if self.date ≠ other.date || self.teacher ≠ other.teacher then false
  else
    let self_start := normalize_hour self.start_hour
    let self_end := if self.end_hour ≠ 0 then normalize_hour self.end_hour else 24
    let other_start := normalize_hour other.start_hour
    let other_end := if other.end_hour ≠ 0 then normalize_hour other.end_hour else 24
    !(decide (self_end ≤ other_start) || decide (other_end ≤ self_start))

/-- Loop body of `Availability.get_hours` (`api/models.py` lines 401–408):
starting at `current = start_hour`, append `current` and step
`current = (current + 1) % 24` until `current == end_hour`.  The Python
`while` loop is embedded with explicit fuel; `none` means the loop was still
running when the fuel ran out. -/
def get_hoursFuel : ℕ → ℤ → ℤ → Option (List ℤ)
  | 0, _, _ => none
  | fuel + 1, current, end_hour =>
    if current = end_hour then some []
    else (get_hoursFuel fuel ((current + 1) % 24) end_hour).map (current :: ·)

/-- `Availability.get_hours`, fuel-parameterized. -/
def Availability.get_hours (self : Availability) (fuel : ℕ) : Option (List ℤ) :=
  get_hoursFuel fuel self.start_hour self.end_hour

/-- Start instant of the slot, in seconds:
`timezone.make_aware(datetime.combine(self.date, time(self.start_hour, 0)))`
of `Availability.can_be_deleted`. -/
def Availability.slot_datetime (self : Availability) : ℤ :=
  self.date * 86400 + self.start_hour * 3600

/-- `Availability.can_be_deleted` (`api/models.py` lines 428–446).  Returns
`(true, none)` when not booked; when booked and the slot starts in less than
8 hours it returns `false` together with the payload of the refusal message:
the remaining time in tenths of an hour, i.e. the `{hours_remaining:.1f}`
figure of the Python f-string scaled by 10. -/
def Availability.can_be_deleted (self : Availability) (now : ℤ) : Bool × Option ℤ :=
  if !self.is_booked then (true, none)
  else
    let time_until_slot := self.slot_datetime - now
    if time_until_slot < 8 * 3600 then
      (false, some (roundHalfEven (time_until_slot * 10) 3600))
    else (true, none)

/-- Price row (`api.models.PrivateLessonPrice`): per-hour price (in cents)
for a `(teacher, student_type, subject, grade-or-null)` key. -/
structure PrivateLessonPrice where
  teacher : ℕ
  student_type : String
  subject : ℕ
  grade : Option ℕ
  price : ℤ
deriving DecidableEq, Repr

/-- Payment row (`payments.models.Payment`).  Amounts are cents;
`commission_percentage` is in hundredths of a percent.  The two derived
columns are `Option`-valued because `Payment.objects.create` is called
without them and `Payment.save` fills them in. -/
structure Payment where
  id : ℕ
  student : ℕ
  teacher : ℕ
  availability : Option ℕ
  amount : ℤ
  commission_percentage : ℤ
  commission_amount : Option ℤ
  teacher_payout_amount : Option ℤ
  payment_method : String
  gateway_transaction_id : String
  status : String
  idempotency_key : String
  verified_at : Option ℤ
  verification_method : Option String
deriving DecidableEq, Repr

/-- Payout row (`payments.models.Payout`). -/
structure Payout where
  id : ℕ
  payment : ℕ
  teacher : ℕ
  amount : ℤ
  status : String
  paid_by : Option ℕ
  paid_at : Option ℤ
  transfer_reference : String
  admin_notes : String
deriving DecidableEq, Repr

/-- `Payment.save` (`payments/models.py` lines 266–282): auto-generate
`idempotency_key` when blank (the fresh uuid is the `fresh_key` parameter);
when `commission_amount` is unset or zero, set it to
`(amount * commission_percentage / 100).quantize(Decimal('0.01'))` — in
cents × hundredths-of-a-percent this is `roundHalfEven (amount * pct) 10000`;
when `teacher_payout_amount` is unset or zero, set it to
`(amount - commission_amount).quantize(Decimal('0.01'))`, which is exact
(both operands are two-decimal values), i.e. `amount - commission_amount`. -/
def Payment.save (fresh_key : String) (p : Payment) : Payment :=
  let idempotency_key := if p.idempotency_key = "" then fresh_key else p.idempotency_key
  let commission_amount : ℤ :=
    match p.commission_amount with
    | none => roundHalfEven (p.amount * p.commission_percentage) 10000
    | some c => if c = 0 then roundHalfEven (p.amount * p.commission_percentage) 10000 else c
  let teacher_payout_amount : ℤ :=
    match p.teacher_payout_amount with
    | none => p.amount - commission_amount
    | some t => if t = 0 then p.amount - commission_amount else t
  { p with
    idempotency_key := idempotency_key,
    commission_amount := some commission_amount,
    teacher_payout_amount := some teacher_payout_amount }

/-- Database state touched by the booking endpoint. -/
structure BookState where
  availabilities : List Availability
  payments : List Payment
  payouts : List Payout
  prices : List PrivateLessonPrice
deriving DecidableEq, Repr

/-- Request body accepted by `PaymentCreateSerializer`
(`payments/serializers.py` lines 158–180): the availability pk, an optional
explicit amount (cents), optional payment method and an optional
commission percentage (hundredths of a percent; the model default is
`20.00`% = `2000`). -/
structure BookRequest where
  availability : ℕ
  amount : Option ℤ
  payment_method : Option String
  commission_percentage : Option ℤ
deriving DecidableEq, Repr

/-- Outcome of the booking endpoint: an error response (message of the first
failing check) or the created Payment. -/
inductive BookOutcome
  | error (msg : String)
  | created (payment : Payment)
deriving DecidableEq, Repr

/-- Auto-pricing block of `PaymentViewSet.create`
(`payments/views.py` lines 142–198), entered when no (truthy) explicit
amount was supplied: duration is the plain `end_hour - start_hour`
subtraction, the first tagged subject is authoritative, school students need
their grade set and an exact-grade price row, university students need a
`grade IS NULL` price row, and the amount is `price * duration`. -/
def computeAmount (st : BookState) (student : User) (availability : Availability) :
    Except String ℤ :=
  let duration := availability.end_hour - availability.start_hour
  match availability.subjects.head? with
  | none => .error ("Availability must have subjects to calculate price.")
  | some subject =>
    let student_grade : Option ℕ :=
      if student.user_type = "school_student" then student.grade else none
    let base := st.prices.filter (fun p =>
      p.teacher = availability.teacher && p.student_type = student.user_type &&
        p.subject = subject)
    let priced : Except String (Option PrivateLessonPrice) :=
      if student.user_type = "school_student" then
        match student_grade with
        | some g => .ok ((base.filter (fun p => p.grade = some g)).head?)
        | none =>
          .error ("Student grade is required to calculate price for school students.")
      else
        .ok ((base.filter (fun p => p.grade = none)).head?)
    match priced with
    | .error e => .error e
    | .ok none => .error ("Teacher has not set pricing for this subject and student type.")
    | .ok (some lesson_price) => .ok (lesson_price.price * duration)

/-- `PaymentViewSet.create` (`payments/views.py` lines 101–240), the whole
booking settlement transaction; `now` is `timezone.now()` and `key` / `txid`
are the two `uuid.uuid4()` draws.  Validation order follows the source:
serializer (`availability` pk resolution, `validate_availability` booked
check, `validate_amount` positivity), then in the view the booked re-check,
the two audience checks, amount auto-calculation when the supplied amount is
falsy, and finally the atomic writes: Payment created `pending` then saved
`completed`/`verified`, Availability marked booked, Payout created
`pending`.  Every error path leaves the state unchanged
(`@transaction.atomic` plus the fact that all checks precede all writes). -/
def PaymentViewSet.create (st : BookState) (student : User) (req : BookRequest)
    (now : ℤ) (key txid : String) : BookOutcome × BookState :=
  match st.availabilities.find? (fun a => a.id = req.availability) with
  | none => (.error ("Invalid pk - object does not exist."), st)
  | some availability =>
    if availability.is_booked then
      (.error ("This lesson slot is already booked."), st)
    else if (match req.amount with | some a => decide (a ≤ 0) | none => false) then
      (.error ("Payment amount must be greater than zero."), st)
    else if availability.for_school_students && student.user_type ≠ "school_student" then
      (.error ("This lesson is only for school students."), st)
    else if availability.for_university_students && student.user_type ≠ "university_student" then
      (.error ("This lesson is only for university students."), st)
    else
      let amountRes : Except String ℤ :=
        match req.amount with
        | some a => if a = 0 then computeAmount st student availability else .ok a
        | none => computeAmount st student availability
      match amountRes with
      | .error e => (.error e, st)
      | .ok amount =>
        let commission_percentage := (req.commission_percentage).getD 2000
        let payment0 : Payment :=
          { id := st.payments.length,
            student := student.id,
            teacher := availability.teacher,
            availability := some availability.id,
            amount := amount,
            commission_percentage := commission_percentage,
            commission_amount := none,
            teacher_payout_amount := none,
            payment_method := (req.payment_method).getD ("bank_transfer"),
            gateway_transaction_id := "TEST-" ++ txid,
            status := "pending",
            idempotency_key := key,
            verified_at := none,
            verification_method := none }
        let payment1 := Payment.save ("") payment0
        let payment2 := Payment.save ("")
          { payment1 with
            status := "completed",
            verified_at := some now,
            verification_method := some ("test") }
        let availability2 :=
          { availability with
            is_booked := true,
            booked_by := some student.id,
            booked_at := some now }
        let payout : Payout :=
          { id := st.payouts.length,
            payment := payment2.id,
            teacher := availability.teacher,
            amount := (payment2.teacher_payout_amount).getD 0,
            status := "pending",
            paid_by := none,
            paid_at := none,
            transfer_reference := "",
            admin_notes := "" }
        (.created payment2,
          { st with
            availabilities := st.availabilities.map
              (fun a => if a.id = availability.id then availability2 else a),
            payments := st.payments ++ [payment2],
            payouts := st.payouts ++ [payout] })

/-- Outcome of `PayoutViewSet.mark_as_paid`, tagged with the HTTP class of
the source's responses. -/
inductive MarkPaidOutcome
  | forbidden (msg : String)
  | notFound (msg : String)
  | badRequest (msg : String)
  | ok (payout : Payout)
deriving DecidableEq, Repr

/-- `PayoutViewSet.mark_as_paid` (`payments/views.py` lines 423–458): admin
gate, pk lookup, already-paid conflict check, `PayoutMarkPaidSerializer`
validation (`transfer_reference` is a CharField with `max_length=255`), then
the one mutation: `status='paid'`, `paid_by=request.user`,
`paid_at=timezone.now()`, reference and notes stored (blank defaults). -/
def PayoutViewSet.mark_as_paid (payouts : List Payout) (user : User) (pk : ℕ)
    (now : ℤ) (transfer_reference admin_notes : Option String) :
    MarkPaidOutcome × List Payout :=
  if !(user.is_staff || user.is_superuser) then
    (.forbidden ("Admin access required."), payouts)
  else
    match payouts.find? (fun p => p.id = pk) with
    | none => (.notFound ("Payout not found."), payouts)
    | some payout =>
      if payout.status = "paid" then
        (.badRequest ("Payout already marked as paid."), payouts)
      else if (match transfer_reference with
               | some r => decide (r.length > 255)
               | none => false) then
        (.badRequest ("Ensure this field has no more than 255 characters."), payouts)
      else
        let payout2 :=
          { payout with
            status := "paid",
            paid_by := some user.id,
            paid_at := some now,
            transfer_reference := (transfer_reference).getD (""),
            admin_notes := (admin_notes).getD ("") }
        (.ok payout2, payouts.map (fun p => if p.id = pk then payout2 else p))

/-! ## Helper lemmas about the hour model -/

/-- The end-boundary ternary in `overlaps_with` is redundant: it coincides
with `normalize_hour`. -/
lemma end_ternary_eq_normalize (h : ℤ) :
    (if h ≠ 0 then normalize_hour h else 24) = normalize_hour h := by
  by_cases hh : h = 0 <;> simp [normalize_hour, hh]

/-- Unfolding of `overlaps_with` on same teacher and date, with both
boundaries normalized. -/
lemma overlaps_with_eq (a b : Availability) :
    a.overlaps_with b =
      if a.date ≠ b.date ∨ a.teacher ≠ b.teacher then false
      else !(decide (normalize_hour a.end_hour ≤ normalize_hour b.start_hour) ||
             decide (normalize_hour b.end_hour ≤ normalize_hour a.start_hour)) := by
  simp only [Availability.overlaps_with, end_ternary_eq_normalize]
  by_cases h1 : a.date = b.date <;> by_cases h2 : a.teacher = b.teacher <;>
    simp [h1, h2]

/-! ## C5 — overlap symmetry and reflexivity -/

/-- C5 (amended): `overlaps_with` is symmetric for all pairs, and
`overlaps_with a a` is `true` exactly when the normalized range of `a` is
nonempty, i.e. `normalize_hour start < normalize_hour end` — not for every
block with `start_hour ≠ end_hour` (a block starting at hour `0` or wrapping
past midnight is not self-overlapping under the code's normalization). -/
theorem overlaps_with_symm_and_self :
    (∀ a b : Availability, a.overlaps_with b = b.overlaps_with a) ∧
    (∀ a : Availability,
      (a.overlaps_with a = true ↔
        normalize_hour a.start_hour < normalize_hour a.end_hour)) := by
  constructor
  · intro a b
    rw [overlaps_with_eq, overlaps_with_eq]
    by_cases h1 : a.date = b.date <;> by_cases h2 : a.teacher = b.teacher <;>
      simp [h1, h2, Ne.symm, eq_comm, Bool.or_comm]
  · intro a
    rw [overlaps_with_eq]
    simp

/-- Block `[0, 5)` on one teacher and day: a legal TimeBlock with
`start_hour ≠ end_hour`. -/
def availStartMidnight : Availability :=
  { id := 0, teacher := 1, date := 0, start_hour := 0, end_hour := 5,
    for_school_students := true, for_university_students := false,
    subjects := [], is_booked := false, booked_by := none, booked_at := none }

/-- C5 counterexample: the block `[0, 5)` has `start_hour ≠ end_hour` yet the
code reports it as NOT overlapping itself (its start hour `0` is normalized
to `24`, emptying the compared range), refuting
`overlaps(a,a) = true whenever a.start ≠ a.end`. -/
theorem overlaps_with_self_counterexample :
    availStartMidnight.start_hour ≠ availStartMidnight.end_hour ∧
    availStartMidnight.overlaps_with availStartMidnight = false := by
  constructor
  · decide
  · decide

/-! ## C4 — overlap characterization against the claimed normalization -/

/-- Overlap relation exactly as claim C4 words it: same teacher and date,
and the half-open hour ranges intersect after normalizing a zero `end_hour`
to `24` — the end boundary only, the start hours compared as stored. -/
def overlapsSpecEndOnly (a b : Availability) : Prop :=
  a.date = b.date ∧ a.teacher = b.teacher ∧
    ((Set.Ico a.start_hour (if a.end_hour = 0 then 24 else a.end_hour)) ∩
      (Set.Ico b.start_hour (if b.end_hour = 0 then 24 else b.end_hour))).Nonempty

/-- Block `[0, 2)` for teacher 1 on day 0. -/
def availMidnightToTwo : Availability :=
  { id := 1, teacher := 1, date := 0, start_hour := 0, end_hour := 2,
    for_school_students := true, for_university_students := false,
    subjects := [], is_booked := false, booked_by := none, booked_at := none }

/-- Block `[1, 3)` for teacher 1 on day 0. -/
def availOneToThree : Availability :=
  { id := 2, teacher := 1, date := 0, start_hour := 1, end_hour := 3,
    for_school_students := true, for_university_students := false,
    subjects := [], is_booked := false, booked_by := none, booked_at := none }

/-- C4 counterexample: `[0,2)` and `[1,3)` on the same teacher and day
intersect under the claimed end-only normalization (hour `1` is in both
stored ranges), yet the code returns `false` — it normalizes the START hour
`0` to `24` as well, emptying the first range. -/
theorem overlaps_with_end_only_counterexample :
    availMidnightToTwo.overlaps_with availOneToThree = false ∧
    overlapsSpecEndOnly availMidnightToTwo availOneToThree := by
  refine ⟨by decide, rfl, rfl, ⟨1, ?_⟩⟩
  simp [availMidnightToTwo, availOneToThree, Set.mem_Ico]

/-- C4 (amended): on blocks whose normalized ranges are nonempty,
`overlaps_with` returns `true` iff the blocks share teacher and date and the
half-open ranges intersect after normalizing zero hours to `24` at BOTH
boundaries (start and end alike). -/
theorem overlaps_with_iff_ranges_intersect (a b : Availability)
    (ha : normalize_hour a.start_hour < normalize_hour a.end_hour)
    (hb : normalize_hour b.start_hour < normalize_hour b.end_hour) :
    a.overlaps_with b = true ↔
      a.date = b.date ∧ a.teacher = b.teacher ∧
        ((Set.Ico (normalize_hour a.start_hour) (normalize_hour a.end_hour)) ∩
          (Set.Ico (normalize_hour b.start_hour) (normalize_hour b.end_hour))).Nonempty := by
  rw [overlaps_with_eq]
  by_cases h1 : a.date = b.date <;> by_cases h2 : a.teacher = b.teacher <;>
    simp [h1, h2, Set.Ico_inter_Ico, Set.nonempty_Ico, lt_min_iff, max_lt_iff]
  omega

/-- Blocks `[9, 11)` and `[10, 12)` for teacher 1 on day 0. -/
def availNineEleven : Availability :=
  { id := 3, teacher := 1, date := 0, start_hour := 9, end_hour := 11,
    for_school_students := true, for_university_students := false,
    subjects := [], is_booked := false, booked_by := none, booked_at := none }

/-- Companion block `[10, 12)` for the C4 witness. -/
def availTenTwelve : Availability :=
  { id := 4, teacher := 1, date := 0, start_hour := 10, end_hour := 12,
    for_school_students := true, for_university_students := false,
    subjects := [], is_booked := false, booked_by := none, booked_at := none }

/-- Witness for the amended C4 theorem at the concrete pair
`[9,11)` / `[10,12)`. -/
theorem overlaps_with_iff_ranges_intersect_witness :
    normalize_hour availNineEleven.start_hour < normalize_hour availNineEleven.end_hour ∧
    normalize_hour availTenTwelve.start_hour < normalize_hour availTenTwelve.end_hour ∧
    (availNineEleven.overlaps_with availTenTwelve = true ↔
      availNineEleven.date = availTenTwelve.date ∧
        availNineEleven.teacher = availTenTwelve.teacher ∧
        ((Set.Ico (normalize_hour availNineEleven.start_hour)
            (normalize_hour availNineEleven.end_hour)) ∩
          (Set.Ico (normalize_hour availTenTwelve.start_hour)
            (normalize_hour availTenTwelve.end_hour))).Nonempty) :=
  ⟨by decide, by decide,
    overlaps_with_iff_ranges_intersect availNineEleven availTenTwelve
      (by decide) (by decide)⟩

/-! ## C9 — termination and value of `get_hours` -/

set_option maxRecDepth 4000 in
/-- Exhaustive check of the `get_hours` loop over all in-range bounds: with
fuel 24 the loop always halts, and the hours produced are
`start, start+1 mod 24, ...` — `(e + 24 - s) % 24` of them. -/
lemma get_hoursFuel_spec :
    ∀ s : ℕ, s < 24 → ∀ e : ℕ, e < 24 → s ≠ e →
      get_hoursFuel 24 (s : ℤ) (e : ℤ) =
        some ((List.range ((e + 24 - s) % 24)).map (fun i => (((s + i) % 24 : ℕ) : ℤ))) := by
  decide

/-- C9: for any availability whose stored bounds are in `0..23` and distinct,
`get_hours` terminates (within 24 loop iterations, wrap case included) and
returns exactly the sequence obtained by stepping `(current + 1) % 24` from
`start_hour` until `end_hour`; the result depends only on the stored
bounds. -/
theorem get_hours_terminates_and_steps (a : Availability) (s e : ℕ)
    (hs : a.start_hour = s) (he : a.end_hour = e)
    (h1 : s < 24) (h2 : e < 24) (hne : s ≠ e) :
    a.get_hours 24 =
      some ((List.range ((e + 24 - s) % 24)).map (fun i => (((s + i) % 24 : ℕ) : ℤ))) := by
  unfold Availability.get_hours
  rw [hs, he]
  exact get_hoursFuel_spec s h1 e h2 hne

/-- Wrap-around block `[22, 2)` for the C9 witness. -/
def availWrapping : Availability :=
  { id := 5, teacher := 1, date := 0, start_hour := 22, end_hour := 2,
    for_school_students := true, for_university_students := false,
    subjects := [], is_booked := false, booked_by := none, booked_at := none }

/-- Witness for C9 at the wrap case `[22, 2)`: the loop halts and yields
`[22, 23, 0, 1]`. -/
theorem get_hours_terminates_and_steps_witness :
    availWrapping.start_hour = ((22 : ℕ) : ℤ) ∧
    availWrapping.end_hour = ((2 : ℕ) : ℤ) ∧
    (22 : ℕ) < 24 ∧ (2 : ℕ) < 24 ∧ (22 : ℕ) ≠ 2 ∧
    availWrapping.get_hours 24 =
      some ((List.range (((2 : ℕ) + 24 - 22) % 24)).map
        (fun i => ((((22 : ℕ) + i) % 24 : ℕ) : ℤ))) ∧
    availWrapping.get_hours 24 = some [22, 23, 0, 1] :=
  ⟨by decide, by decide, by decide, by decide, by decide,
    get_hours_terminates_and_steps availWrapping 22 2 (by decide) (by decide)
      (by decide) (by decide) (by decide),
    by decide⟩

/-! ## C6 — the 8-hour deletion policy -/

/-- C6: an unbooked availability is deletable at any time; a booked one is
refused exactly when the slot-start instant is less than 8 hours away, and
the refusal message carries the remaining time to one decimal place (tenths
of an hour); otherwise deletion is allowed. -/
theorem can_be_deleted_policy (a : Availability) (now : ℤ) :
    (a.is_booked = false → a.can_be_deleted now = (true, none)) ∧
    (a.is_booked = true →
      (((a.can_be_deleted now).1 = false) ↔ a.slot_datetime - now < 8 * 3600) ∧
      (a.slot_datetime - now < 8 * 3600 →
        a.can_be_deleted now =
          (false, some (roundHalfEven ((a.slot_datetime - now) * 10) 3600))) ∧
      (¬ a.slot_datetime - now < 8 * 3600 → a.can_be_deleted now = (true, none))) := by
  unfold Availability.can_be_deleted
  by_cases hb : a.is_booked
  all_goals simp [hb]
  all_goals split_ifs with hc <;> simp_all

/-- Booked slot starting 3 hours after the epoch, for the C6 witness. -/
def availBookedIn3h : Availability :=
  { id := 6, teacher := 1, date := 0, start_hour := 3, end_hour := 5,
    for_school_students := true, for_university_students := false,
    subjects := [], is_booked := true, booked_by := some 9, booked_at := some 0 }

/-- Witness for C6: a booked slot 3 hours away is refused with
`3.0` hours remaining (`30` tenths). -/
theorem can_be_deleted_policy_witness :
    availBookedIn3h.is_booked = true ∧
    availBookedIn3h.slot_datetime - 0 < 8 * 3600 ∧
    availBookedIn3h.can_be_deleted 0 =
      (false, some (roundHalfEven ((availBookedIn3h.slot_datetime - 0) * 10) 3600)) ∧
    roundHalfEven ((availBookedIn3h.slot_datetime - 0) * 10) 3600 = 30 :=
  ⟨by decide, by decide,
    ((can_be_deleted_policy availBookedIn3h 0).2 (by decide)).2.1 (by decide),
    by decide⟩

/-! ## C2 — already-booked slots deterministically reject -/

/-- C2: whenever the requested availability exists and is already booked,
the booking endpoint returns the already-booked rejection and leaves the
whole state untouched — in particular no Payment row is created and the
availability is unchanged; being a function of its inputs, a repeated
attempt rejects identically. -/
theorem already_booked_rejected (st : BookState) (student : User)
    (req : BookRequest) (now : ℤ) (key txid : String) (a : Availability)
    (hfind : st.availabilities.find? (fun x => x.id = req.availability) = some a)
    (hb : a.is_booked = true) :
    PaymentViewSet.create st student req now key txid =
      (.error ("This lesson slot is already booked."), st) := by
  simp [PaymentViewSet.create, hfind, hb]

/-- Already-booked slot for the C2 witness. -/
def availAlreadyBooked : Availability :=
  { id := 7, teacher := 2, date := 10, start_hour := 9, end_hour := 11,
    for_school_students := true, for_university_students := false,
    subjects := [1], is_booked := true, booked_by := some 5, booked_at := some 100 }

/-- State holding only the booked slot, for the C2 witness. -/
def stBookedSlot : BookState :=
  { availabilities := [availAlreadyBooked], payments := [], payouts := [], prices := [] }

/-- School student used by several witnesses. -/
def studentSchool : User :=
  { id := 5, user_type := "school_student", grade := some 3,
    is_staff := false, is_superuser := false }

/-- Booking request against the booked slot, for the C2 witness. -/
def reqBookedSlot : BookRequest :=
  { availability := 7, amount := none, payment_method := none,
    commission_percentage := none }

/-- Witness for C2 at a concrete booked slot. -/
theorem already_booked_rejected_witness :
    stBookedSlot.availabilities.find?
        (fun x => x.id = reqBookedSlot.availability) = some availAlreadyBooked ∧
    availAlreadyBooked.is_booked = true ∧
    PaymentViewSet.create stBookedSlot studentSchool reqBookedSlot 0 ("k") ("t") =
      (.error ("This lesson slot is already booked."), stBookedSlot) :=
  ⟨by decide, by decide,
    already_booked_rejected stBookedSlot studentSchool reqBookedSlot 0 ("k") ("t")
      availAlreadyBooked (by decide) (by decide)⟩

/-! ## Helper lemmas for the settle step -/

/-- Net effect on the Payment row of the settle step's two saves
(`Payment.objects.create` with `status='pending'` followed by the
completed-status `save`): the derived commission columns are filled in from
`amount` and `commission_percentage`, everything else keeps the value of the
in-memory record. -/
lemma double_save_eq (q : Payment) (hq1 : q.commission_amount = none)
    (hq2 : q.teacher_payout_amount = none) (now : ℤ) :
    Payment.save ("") { Payment.save ("") q with
        status := "completed", verified_at := some now,
        verification_method := some ("test") } =
      { q with
        status := "completed", verified_at := some now,
        verification_method := some ("test"),
        commission_amount :=
          some (roundHalfEven (q.amount * q.commission_percentage) 10000),
        teacher_payout_amount :=
          some (q.amount - roundHalfEven (q.amount * q.commission_percentage) 10000) } := by
  unfold Payment.save
  simp only [hq1, hq2]
  by_cases hk : q.idempotency_key = "" <;>
    by_cases hc : roundHalfEven (q.amount * q.commission_percentage) 10000 = 0 <;>
      by_cases ht : q.amount - roundHalfEven (q.amount * q.commission_percentage) 10000 = 0 <;>
        simp_all

/-! ## C1 — postconditions of a successful booking settlement -/

/-- C1: whenever the booking endpoint succeeds, the returned Payment is
`completed` with `verified_at` set to the settlement time, verification
method `test`, the freshly drawn idempotency key and the synthetic
`TEST-`-prefixed gateway transaction id; the requested availability is now
booked by the requesting student with `booked_at` set; and a pending Payout
row referencing the Payment for exactly `teacher_payout_amount` exists. -/
theorem booking_settlement_postconditions (st : BookState) (student : User)
    (req : BookRequest) (now : ℤ) (key txid : String) (p : Payment)
    (st2 : BookState)
    (h : PaymentViewSet.create st student req now key txid = (.created p, st2)) :
    p.status = "completed" ∧
    p.verified_at = some now ∧
    p.verification_method = some ("test") ∧
    p.idempotency_key = key ∧
    p.gateway_transaction_id = "TEST-" ++ txid ∧
    (∃ a ∈ st2.availabilities, a.id = req.availability ∧ a.is_booked = true ∧
      a.booked_by = some student.id ∧ a.booked_at = some now) ∧
    (∃ po ∈ st2.payouts, po.payment = p.id ∧ some po.amount = p.teacher_payout_amount ∧
      po.status = "pending") := by
  simp only [PaymentViewSet.create] at h
  split at h
  · simp at h
  · rename_i avail hfind
    split at h
    · simp at h
    · split at h
      · simp at h
      · split at h
        · simp at h
        · split at h
          · simp at h
          · split at h
            · simp at h
            · rename_i amount hamountRes
              injection h with h1 h2
              injection h1 with h1
              subst h1
              subst h2
              have hmem := List.mem_of_find?_eq_some hfind
              have hid : avail.id = req.availability := by
                have := List.find?_some hfind
                simpa using this
              rw [double_save_eq _ rfl rfl]
              refine ⟨rfl, rfl, rfl, ?_, rfl, ?_, ?_⟩
              · by_cases hk : key = "" <;> simp [hk]
              · refine ⟨{ avail with
                  is_booked := true, booked_by := some student.id,
                  booked_at := some now }, ?_, by simpa using hid, rfl, rfl, rfl⟩
                simp only [List.mem_map]
                exact ⟨avail, hmem, by simp⟩
              · refine ⟨_, List.mem_append.mpr (Or.inr (List.mem_singleton_self _)),
                  rfl, ?_, rfl⟩
                simp

/-- Unbooked school-audience slot for the C1 witness. -/
def availOpenSlot : Availability :=
  { id := 10, teacher := 2, date := 100, start_hour := 9, end_hour := 11,
    for_school_students := true, for_university_students := false,
    subjects := [1], is_booked := false, booked_by := none, booked_at := none }

/-- State holding only the open slot. -/
def stOpenSlot : BookState :=
  { availabilities := [availOpenSlot], payments := [], payouts := [], prices := [] }

/-- Booking request with an explicit amount of 80.00. -/
def reqOpenSlot : BookRequest :=
  { availability := 10, amount := some 8000, payment_method := none,
    commission_percentage := none }

/-- The Payment the settle step produces for `reqOpenSlot`: 20.00% of 80.00
is 16.00 commission and 64.00 teacher payout. -/
def paymentSettled : Payment :=
  { id := 0, student := 5, teacher := 2, availability := some 10, amount := 8000,
    commission_percentage := 2000, commission_amount := some 1600,
    teacher_payout_amount := some 6400, payment_method := "bank_transfer",
    gateway_transaction_id := "TEST-TX1", status := "completed",
    idempotency_key := "KEY1", verified_at := some 1000,
    verification_method := some ("test") }

/-- The state after the settlement: slot booked, payment stored, pending
payout of 64.00. -/
def stSettled : BookState :=
  { availabilities := [{ availOpenSlot with
      is_booked := true, booked_by := some 5, booked_at := some 1000 }],
    payments := [paymentSettled],
    payouts := [{
      id := 0, payment := 0, teacher := 2, amount := 6400,
      status := "pending", paid_by := none, paid_at := none,
      transfer_reference := "", admin_notes := "" }],
    prices := [] }

/-- Witness for C1 at a concrete settlement. -/
theorem booking_settlement_postconditions_witness :
    PaymentViewSet.create stOpenSlot studentSchool reqOpenSlot 1000 ("KEY1") ("TX1") =
      (.created paymentSettled, stSettled) ∧
    (paymentSettled.status = "completed" ∧
      paymentSettled.verified_at = some 1000 ∧
      paymentSettled.verification_method = some ("test") ∧
      paymentSettled.idempotency_key = "KEY1" ∧
      paymentSettled.gateway_transaction_id = "TEST-" ++ "TX1" ∧
      (∃ a ∈ stSettled.availabilities, a.id = reqOpenSlot.availability ∧
        a.is_booked = true ∧ a.booked_by = some studentSchool.id ∧
        a.booked_at = some 1000) ∧
      (∃ po ∈ stSettled.payouts, po.payment = paymentSettled.id ∧
        some po.amount = paymentSettled.teacher_payout_amount ∧
        po.status = "pending")) :=
  ⟨by decide,
    booking_settlement_postconditions stOpenSlot studentSchool reqOpenSlot 1000
      ("KEY1") ("TX1") paymentSettled stSettled (by decide)⟩

/-- Round-half-even of a nonnegative quantity is nonnegative. -/
lemma roundHalfEven_nonneg (n d : ℤ) (hd : 0 < d) (hn : 0 ≤ n) :
    0 ≤ roundHalfEven n d := by
  have hq : 0 ≤ n / d := Int.ediv_nonneg hn (le_of_lt hd)
  unfold roundHalfEven
  simp only []
  split_ifs <;> omega

/-- Round-half-even of `n / d` is at most `a` whenever `n ≤ a * d`
(monotone bound used for the commission ≤ amount argument). -/
lemma roundHalfEven_le_mul (n d a : ℤ) (hd : 0 < d) (h : n ≤ a * d) :
    roundHalfEven n d ≤ a := by
  have hkey : d * (n / d) + n % d = n := Int.ediv_add_emod n d
  have hr0 : 0 ≤ n % d := Int.emod_nonneg n (by omega)
  have hrd : n % d < d := Int.emod_lt_of_pos n hd
  have hc : a * d = d * a := mul_comm a d
  unfold roundHalfEven
  simp only []
  split_ifs with h1 h2 h3
  · by_contra hlt
    push_neg at hlt
    have hmul : d * (a + 1) ≤ d * (n / d) :=
      mul_le_mul_of_nonneg_left (by omega) (le_of_lt hd)
    have hexp : d * (a + 1) = d * a + d := by ring
    linarith
  · by_contra hlt
    push_neg at hlt
    have hmul : d * a ≤ d * (n / d) :=
      mul_le_mul_of_nonneg_left (by omega) (le_of_lt hd)
    linarith
  · by_contra hlt
    push_neg at hlt
    have hmul : d * a ≤ d * (n / d) :=
      mul_le_mul_of_nonneg_left (by omega) (le_of_lt hd)
    linarith
  · by_contra hlt
    push_neg at hlt
    have hmul : d * a ≤ d * (n / d) :=
      mul_le_mul_of_nonneg_left (by omega) (le_of_lt hd)
    linarith

/-- C3 (amended): every Payment produced by a successful settlement has
`commission_amount = round(amount * commission_percentage / 100, 2)` and
`teacher_payout_amount = round(amount - commission_amount, 2)` (scaled-cents
form), the two split parts sum exactly to `amount`, and both parts are
non-negative PROVIDED the commission percentage lies in `[0, 100]` and the
amount is non-negative — bounds the endpoint does not enforce. -/
theorem commission_split_properties (st : BookState) (student : User)
    (req : BookRequest) (now : ℤ) (key txid : String) (p : Payment)
    (st2 : BookState)
    (h : PaymentViewSet.create st student req now key txid = (.created p, st2)) :
    p.commission_amount =
      some (roundHalfEven (p.amount * p.commission_percentage) 10000) ∧
    p.teacher_payout_amount =
      some (p.amount - roundHalfEven (p.amount * p.commission_percentage) 10000) ∧
    (p.commission_amount).getD 0 + (p.teacher_payout_amount).getD 0 = p.amount ∧
    (0 ≤ p.amount → 0 ≤ p.commission_percentage → p.commission_percentage ≤ 10000 →
      0 ≤ (p.commission_amount).getD 0 ∧ 0 ≤ (p.teacher_payout_amount).getD 0) := by
  simp only [PaymentViewSet.create] at h
  split at h
  · simp at h
  · rename_i avail hfind
    split at h
    · simp at h
    · split at h
      · simp at h
      · split at h
        · simp at h
        · split at h
          · simp at h
          · split at h
            · simp at h
            · rename_i amount hamountRes
              injection h with h1 h2
              injection h1 with h1
              subst h1
              subst h2
              rw [double_save_eq _ rfl rfl]
              refine ⟨rfl, rfl, by simp, ?_⟩
              intro h1 h2 h3
              simp only [Option.getD_some]
              simp at h1 h2 h3 ⊢
              constructor
              · exact roundHalfEven_nonneg _ _ (by norm_num) (mul_nonneg h1 h2)
              · have hb := roundHalfEven_le_mul _ 10000 _ (by norm_num)
                  (mul_le_mul_of_nonneg_left h3 h1)
                omega

/-- Booking request carrying a client-supplied commission percentage of
`150.00`% — accepted by the serializer, which puts no upper bound on it. -/
def reqOverCommission : BookRequest :=
  { availability := 10, amount := some 10000, payment_method := none,
    commission_percentage := some 15000 }

/-- The completed Payment that request produces: commission 150.00,
teacher payout −50.00. -/
def paymentOverCommission : Payment :=
  { id := 0, student := 5, teacher := 2, availability := some 10, amount := 10000,
    commission_percentage := 15000, commission_amount := some 15000,
    teacher_payout_amount := some (-5000), payment_method := "bank_transfer",
    gateway_transaction_id := "TEST-tx", status := "completed",
    idempotency_key := "kx", verified_at := some 0,
    verification_method := some ("test") }

/-- C3 counterexample: a booking with commission percentage `150.00`%
settles into a completed Payment whose `teacher_payout_amount` is negative
(−50.00), refuting unconditional non-negativity; the split still sums to
`amount`. -/
theorem commission_nonneg_counterexample :
    (PaymentViewSet.create stOpenSlot studentSchool reqOverCommission 0 ("kx") ("tx")).1 =
      .created paymentOverCommission ∧
    paymentOverCommission.status = "completed" ∧
    (paymentOverCommission.commission_amount).getD 0 +
        (paymentOverCommission.teacher_payout_amount).getD 0 =
      paymentOverCommission.amount ∧
    (paymentOverCommission.teacher_payout_amount).getD 0 < 0 :=
  ⟨by decide, by decide, by decide, by decide⟩

/-- Witness for the amended C3 theorem at the concrete settlement of
`reqOpenSlot`: 16.00 + 64.00 = 80.00 with both parts non-negative. -/
theorem commission_split_properties_witness :
    0 ≤ paymentSettled.amount ∧
    0 ≤ paymentSettled.commission_percentage ∧
    paymentSettled.commission_percentage ≤ 10000 ∧
    (0 ≤ (paymentSettled.commission_amount).getD 0 ∧
      0 ≤ (paymentSettled.teacher_payout_amount).getD 0) ∧
    (paymentSettled.commission_amount).getD 0 +
        (paymentSettled.teacher_payout_amount).getD 0 =
      paymentSettled.amount := by
  have H := commission_split_properties stOpenSlot studentSchool reqOpenSlot 1000
    ("KEY1") ("TX1") paymentSettled stSettled (by decide)
  exact ⟨by decide, by decide, by decide,
    H.2.2.2 (by decide) (by decide) (by decide), H.2.2.1⟩

/-! ## C10 — settlement performs no future-slot check -/

/-- C10: the booking endpoint never compares the slot instant with the
current time — an unbooked availability whose audience matches the student
and with a positive explicit amount settles successfully even when its
date and start hour lie entirely in the past (the hypothesis
`_hpast` is never consulted by the proof, because no code path reads it). -/
theorem booking_ignores_past_slots (st : BookState) (student : User)
    (req : BookRequest) (now : ℤ) (key txid : String) (avail : Availability)
    (hfind : st.availabilities.find? (fun a => a.id = req.availability) = some avail)
    (hunbooked : avail.is_booked = false)
    (hschool : ¬(avail.for_school_students = true ∧ student.user_type ≠ "school_student"))
    (huniv : ¬(avail.for_university_students = true ∧
      student.user_type ≠ "university_student"))
    (amt : ℤ) (hamt : req.amount = some amt) (hpos : 0 < amt)
    (_hpast : avail.slot_datetime < now) :
    ∃ p st2, PaymentViewSet.create st student req now key txid = (.created p, st2) := by
  have h2 : ¬(amt ≤ 0) := by omega
  have h5 : ¬(amt = 0) := by omega
  have h3 : (avail.for_school_students && decide (student.user_type ≠ "school_student")) = false := by
    cases hfs : avail.for_school_students
    · simp
    · simp only [Bool.true_and, decide_eq_false_iff_not, Decidable.not_not]
      by_contra hne
      exact hschool ⟨hfs, hne⟩
  have h4 : (avail.for_university_students && decide (student.user_type ≠ "university_student")) = false := by
    cases hfu : avail.for_university_students
    · simp
    · simp only [Bool.true_and, decide_eq_false_iff_not, Decidable.not_not]
      by_contra hne
      exact huniv ⟨hfu, hne⟩
  simp [PaymentViewSet.create, hfind, hunbooked, hamt, h2, h3, h4, h5, hschool, huniv]

/-- Slot five days before the epoch, for the C10 witness. -/
def availPastSlot : Availability :=
  { id := 20, teacher := 3, date := -5, start_hour := 10, end_hour := 12,
    for_school_students := true, for_university_students := false,
    subjects := [1], is_booked := false, booked_by := none, booked_at := none }

/-- State holding only the past slot. -/
def stPastSlot : BookState :=
  { availabilities := [availPastSlot], payments := [], payouts := [], prices := [] }

/-- Booking request for the past slot with an explicit amount of 50.00. -/
def reqPastSlot : BookRequest :=
  { availability := 20, amount := some 5000, payment_method := none,
    commission_percentage := none }

/-- Witness for C10: booking the five-days-past slot at time 0 succeeds. -/
theorem booking_ignores_past_slots_witness :
    stPastSlot.availabilities.find?
        (fun a => a.id = reqPastSlot.availability) = some availPastSlot ∧
    availPastSlot.is_booked = false ∧
    reqPastSlot.amount = some 5000 ∧ (0 : ℤ) < 5000 ∧
    availPastSlot.slot_datetime < 0 ∧
    ∃ p st2, PaymentViewSet.create stPastSlot studentSchool reqPastSlot 0 ("kp") ("tp") =
      (.created p, st2) :=
  ⟨by decide, by decide, by decide, by decide, by decide,
    booking_ignores_past_slots stPastSlot studentSchool reqPastSlot 0 ("kp") ("tp")
      availPastSlot (by decide) (by decide) (by decide) (by decide) 5000
      (by decide) (by decide) (by decide)⟩

/-! ## C8 — the audience check -/

/-- The auto-pricing block can only fail with one of its three own
messages — never with an audience message. -/
lemma computeAmount_error_cases (st : BookState) (student : User)
    (avail : Availability) (e : String)
    (h : computeAmount st student avail = .error e) :
    e = "Availability must have subjects to calculate price." ∨
    e = "Student grade is required to calculate price for school students." ∨
    e = "Teacher has not set pricing for this subject and student type." := by
  simp only [computeAmount] at h
  split at h
  · simp only [Except.error.injEq] at h
    exact Or.inl h.symm
  · split at h
    · rename_i e1 heq
      simp only [Except.error.injEq] at h
      subst h
      split at heq
      · split at heq
        · simp at heq
        · simp only [Except.error.injEq] at heq
          exact Or.inr (Or.inl heq.symm)
      · simp at heq
    · simp only [Except.error.injEq] at h
      exact Or.inr (Or.inr h.symm)
    · simp at h

/-- C8 (amended): for a found, unbooked availability and a well-formed
amount, the booking is rejected with a wrong-audience error exactly when
`for_school_students` is set and the requester is not a school student, OR
`for_university_students` is set and the requester is not a university
student.  Because the two checks are independent, an availability with BOTH
flags set rejects every student — no student type passes. -/
theorem wrong_audience_characterization (st : BookState) (student : User)
    (req : BookRequest) (now : ℤ) (key txid : String) (avail : Availability)
    (hfind : st.availabilities.find? (fun a => a.id = req.availability) = some avail)
    (hunbooked : avail.is_booked = false)
    (hamt : ∀ x, req.amount = some x → 0 < x) :
    ((PaymentViewSet.create st student req now key txid).1 =
        .error ("This lesson is only for school students.") ∨
      (PaymentViewSet.create st student req now key txid).1 =
        .error ("This lesson is only for university students.")) ↔
      ((avail.for_school_students = true ∧ student.user_type ≠ "school_student") ∨
       (avail.for_university_students = true ∧
         student.user_type ≠ "university_student")) := by
  have h2 : (match req.amount with | some a => decide (a ≤ 0) | none => false) = false := by
    cases hra : req.amount
    · rfl
    · rename_i a
      have := hamt a hra
      simp only [decide_eq_false_iff_not]
      omega
  by_cases hsc : avail.for_school_students = true ∧ student.user_type ≠ "school_student"
  · have hscb : (avail.for_school_students &&
        decide (student.user_type ≠ "school_student")) = true := by
      simp [hsc.1, hsc.2]
    simp [PaymentViewSet.create, hfind, hunbooked, h2, hscb, hsc]
  · have hscb : (avail.for_school_students &&
        decide (student.user_type ≠ "school_student")) = false := by
      cases hfs : avail.for_school_students
      · rfl
      · simp only [Bool.true_and, decide_eq_false_iff_not, Decidable.not_not]
        by_contra hne
        exact hsc ⟨hfs, hne⟩
    by_cases huc : avail.for_university_students = true ∧
        student.user_type ≠ "university_student"
    · have hucb : (avail.for_university_students &&
          decide (student.user_type ≠ "university_student")) = true := by
        simp [huc.1, huc.2]
      simp [PaymentViewSet.create, hfind, hunbooked, h2, hscb, hucb, huc, if_neg hsc]
    · have hucb : (avail.for_university_students &&
          decide (student.user_type ≠ "university_student")) = false := by
        cases hfu : avail.for_university_students
        · rfl
        · simp only [Bool.true_and, decide_eq_false_iff_not, Decidable.not_not]
          by_contra hne
          exact huc ⟨hfu, hne⟩
      rcases hres : (match req.amount with
          | some a => if a = 0 then computeAmount st student avail else Except.ok a
          | none => computeAmount st student avail) with e | amount
      · have he : computeAmount st student avail = .error e := by
          cases hra : req.amount
          · rw [hra] at hres
            exact hres
          · rename_i a
            have hpos := hamt a hra
            simp only [hra] at hres
            rw [if_neg (by omega : ¬a = 0)] at hres
            simp at hres
        have hne := computeAmount_error_cases st student avail e he
        simp [PaymentViewSet.create, hfind, hunbooked, h2, hscb, hucb, hres, hsc, huc]
        rcases hne with rfl | rfl | rfl <;> decide
      · simp [PaymentViewSet.create, hfind, hunbooked, h2, hscb, hucb, hres, hsc, huc]

/-! ## C7 — markPaid conflicts exactly on already-paid payouts -/

/-- C7: for an admin requester and an existing payout, `mark_as_paid` fails
with the already-paid conflict iff the payout's status is `paid` (leaving
the ledger unchanged); otherwise, when the submitted reference passes
validation, it succeeds and the returned payout differs from the stored one
exactly in `status = paid`, `paid_by = the admin`, `paid_at = now` and the
stored reference and notes. -/
theorem mark_as_paid_conflict_iff (payouts : List Payout) (user : User) (pk : ℕ)
    (now : ℤ) (ref notes : Option String) (payout : Payout)
    (hadmin : (user.is_staff || user.is_superuser) = true)
    (hfind : payouts.find? (fun p => p.id = pk) = some payout) :
    (((PayoutViewSet.mark_as_paid payouts user pk now ref notes).1 =
        .badRequest ("Payout already marked as paid.")) ↔ payout.status = "paid") ∧
    (payout.status = "paid" →
      PayoutViewSet.mark_as_paid payouts user pk now ref notes =
        (.badRequest ("Payout already marked as paid."), payouts)) ∧
    (payout.status ≠ "paid" →
      (match ref with | some r => decide (r.length > 255) | none => false) = false →
      ∃ p2, (PayoutViewSet.mark_as_paid payouts user pk now ref notes).1 = .ok p2 ∧
        p2.status = "paid" ∧ p2.paid_by = some user.id ∧ p2.paid_at = some now ∧
        p2.transfer_reference = (ref).getD ("") ∧
        p2.admin_notes = (notes).getD ("") ∧
        p2.id = payout.id ∧ p2.payment = payout.payment ∧
        p2.teacher = payout.teacher ∧ p2.amount = payout.amount) := by
  by_cases hp : payout.status = "paid" <;>
    by_cases hv : (match ref with | some r => decide (r.length > 255) | none => false) = true <;>
      simp [PayoutViewSet.mark_as_paid, hadmin, hfind, hp, hv]

/-- Availability flagged for both school and university students — a legal
state, since creation only demands at least one flag. -/
def availBothAudiences : Availability :=
  { id := 30, teacher := 4, date := 50, start_hour := 14, end_hour := 16,
    for_school_students := true, for_university_students := true,
    subjects := [2], is_booked := false, booked_by := none, booked_at := none }

/-- State holding only the both-audiences slot. -/
def stBothAudiences : BookState :=
  { availabilities := [availBothAudiences], payments := [], payouts := [],
    prices := [] }

/-- Booking request for the both-audiences slot with amount 40.00. -/
def reqBothAudiences : BookRequest :=
  { availability := 30, amount := some 4000, payment_method := none,
    commission_percentage := none }

/-- University student used by the C8 counterexample. -/
def studentUniversity : User :=
  { id := 6, user_type := "university_student", grade := none,
    is_staff := false, is_superuser := false }

/-- C8 counterexample: on an availability with both audience flags set, a
school student is rejected (university-only message) and a university student is
rejected (school-only message) — refuting the claim that either student type
passes the audience check of a both-flags availability. -/
theorem wrong_audience_counterexample :
    availBothAudiences.for_school_students = true ∧
    availBothAudiences.for_university_students = true ∧
    availBothAudiences.is_booked = false ∧
    (PaymentViewSet.create stBothAudiences studentSchool reqBothAudiences 0
        ("k8") ("t8")).1 =
      .error ("This lesson is only for university students.") ∧
    (PaymentViewSet.create stBothAudiences studentUniversity reqBothAudiences 0
        ("k9") ("t9")).1 =
      .error ("This lesson is only for school students.") :=
  ⟨by decide, by decide, by decide, by decide, by decide⟩

/-- Witness for the amended C8 theorem at the both-flags slot and a school
student. -/
theorem wrong_audience_characterization_witness :
    stBothAudiences.availabilities.find?
        (fun a => a.id = reqBothAudiences.availability) = some availBothAudiences ∧
    availBothAudiences.is_booked = false ∧
    (((PaymentViewSet.create stBothAudiences studentSchool reqBothAudiences 0
          ("k8") ("t8")).1 =
        .error ("This lesson is only for school students.") ∨
      (PaymentViewSet.create stBothAudiences studentSchool reqBothAudiences 0
          ("k8") ("t8")).1 =
        .error ("This lesson is only for university students.")) ↔
      ((availBothAudiences.for_school_students = true ∧
          studentSchool.user_type ≠ "school_student") ∨
       (availBothAudiences.for_university_students = true ∧
          studentSchool.user_type ≠ "university_student"))) :=
  ⟨by decide, by decide,
    wrong_audience_characterization stBothAudiences studentSchool reqBothAudiences
      0 ("k8") ("t8") availBothAudiences (by decide) (by decide)
      (by intro x hx; simp [reqBothAudiences] at hx; omega)⟩

/-- Pending payout for the C7 witness. -/
def payoutPending : Payout :=
  { id := 0, payment := 0, teacher := 2, amount := 6400, status := "pending",
    paid_by := none, paid_at := none, transfer_reference := "",
    admin_notes := "" }

/-- The payout after the first `mark_as_paid` call. -/
def payoutPaid : Payout :=
  { id := 0, payment := 0, teacher := 2, amount := 6400, status := "paid",
    paid_by := some 99, paid_at := some 500, transfer_reference := "REF",
    admin_notes := "" }

/-- Staff user performing the payout updates. -/
def adminUser : User :=
  { id := 99, user_type := "admin", grade := none,
    is_staff := true, is_superuser := false }

/-- Witness for C7: the first `mark_as_paid` succeeds, the second call on
the same payout is rejected with the already-paid conflict and the ledger
is unchanged. -/
theorem mark_as_paid_conflict_iff_witness :
    (adminUser.is_staff || adminUser.is_superuser) = true ∧
    PayoutViewSet.mark_as_paid [payoutPending] adminUser 0 500 (some ("REF")) none =
      (.ok payoutPaid, [payoutPaid]) ∧
    [payoutPaid].find? (fun p => p.id = 0) = some payoutPaid ∧
    payoutPaid.status = "paid" ∧
    PayoutViewSet.mark_as_paid [payoutPaid] adminUser 0 900 none none =
      (.badRequest ("Payout already marked as paid."), [payoutPaid]) :=
  ⟨by decide, by decide, by decide, by decide,
    (mark_as_paid_conflict_iff [payoutPaid] adminUser 0 900 none none payoutPaid
      (by decide) (by decide)).2.1 (by decide)⟩
